import Mathlib

/-!
Verification of `ansible/roles/setup_root_stack/files/docker_netpol_heps.py`.

The script discovers Docker networks carrying `netpol.*` labels, generates
Calico HostEndpoint manifests for them, and either lists them as JSON or
applies them through an external helper.

Embedding conventions:
* Python dicts are association lists `List (String × String)` (insertion
  order preserved, as in Python 3.7+); `d.get(k, default)` is `dictGetD`,
  `k in d` is `(lookupStr d k).isSome`.
* JSON documents (the manifest and the listing entries) are values of the
  inductive `Json`, so field names and nesting are represented literally.
* The external world (the `docker` CLI and the apply helper script) is an
  injected environment: each command is a `CmdOutcome` (captured stdout on
  success, a CalledProcessError description on failure).  `docker network ls`
  output is modelled as the list of id lines of its stripped stdout (the
  newline split of `network_ids` at line 35 of the source); the JSON parsing of
  `docker network inspect` output (`json.loads(...)[0]`, line 41) happens at
  this boundary, so an inspect success carries the parsed descriptor.
* Process effects are made explicit: the program result is a `ProgResult`
  with the printed stdout lines, stderr lines, exit code and files written.
  `sys.exit(1)` inside `run_command` is the `Except.error` branch, surfaced
  by `main` as exit code 1 with the diagnostic on stderr.
-/

namespace DockerNetpolHeps

/-- A JSON-like document: Python dicts/lists/strings as built by the script. -/
inductive Json where
  | str (s : String)
  | arr (elems : List Json)
  | obj (fields : List (String × Json))
deriving Repr

/-- Association-list lookup over string-keyed JSON object fields. -/
def lookupJson : List (String × Json) → String → Option Json
  | [], _ => none
  | p :: rest, k => if p.1 = k then some p.2 else lookupJson rest k

/-- `m[k]` on a JSON object (none when the receiver is not an object). -/
def Json.getField : Json → String → Option Json
  | .obj fs, k => lookupJson fs k
  | _, _ => none

mutual

/-- Compact JSON serialization (the `indent=2` whitespace of `json.dumps`
is not modelled; only structure and field names are). -/
def Json.render : Json → String
  | .str s => "\"" ++ s ++ "\""
  | .arr elems => "[" ++ renderElems elems ++ "]"
  | .obj fields => "\x7b" ++ renderFields fields ++ "\x7d"

def renderElems : List Json → String
  | [] => ""
  | [x] => Json.render x
  | x :: rest => Json.render x ++ ", " ++ renderElems rest

def renderFields : List (String × Json) → String
  | [] => ""
  | [p] => "\"" ++ p.1 ++ "\": " ++ Json.render p.2
  | p :: rest => "\"" ++ p.1 ++ "\": " ++ Json.render p.2 ++ ", " ++ renderFields rest

end

/-- Association-list lookup modelling `d[k]` presence / `d.get(k)` on a
string-to-string Python dict. -/
def lookupStr : List (String × String) → String → Option String
  | [], _ => none
  | p :: rest, k => if p.1 = k then some p.2 else lookupStr rest k

/-- `d.get(k, default)` on a string-to-string dict. -/
def dictGetD (d : List (String × String)) (k defaultVal : String) : String :=
  (lookupStr d k).getD defaultVal

/-- The `Labels` field of a `docker network inspect` descriptor: it can be
absent from the JSON object, be JSON `null` (Python `None`), or be a dict. -/
inductive LabelsField where
  | absent
  | nullv
  | dict (entries : List (String × String))
deriving Repr, DecidableEq

/-- The parsed network descriptor (`network_data` at line 41 of the source):
name, label map, driver option map.  `Options` absent is modelled as `[]`
(the `Options` lookup with default then yields an empty dict). -/
structure NetworkData where
  Name : String
  Labels : LabelsField
  Options : List (String × String)
deriving Repr, DecidableEq

/-- The `Labels` lookup with empty-dict default as evaluated inside `generate_hep_manifest`:
an absent field yields `{}`.  A `null` field would yield Python `None` there,
but `generate_hep_manifest` is only ever called on descriptors that passed
the filter, whose `Labels` is a dict, so the `nullv` arm is never reached on
the real control flow of the script; it is mapped to `[]` to keep the function
total. -/
def getLabels : LabelsField → List (String × String)
  | .dict entries => entries
  | _ => []

/-- The filter condition of line 45 of the source:
labels truthy, and the key netpol.app a member of labels.  An absent `Labels` field gives the
falsy `{}`, a `null` one the falsy `None`; both short-circuit before the
membership test (which would raise on `None`). -/
def isPolicyRelevant : LabelsField → Bool
  | .absent => false
  | .nullv => false
  | .dict entries => !entries.isEmpty && (lookupStr entries "netpol.app").isSome

/-- Predicate written from the words of the spec (section 4.2): true iff the
policy-enablement marker key `netpol.app` is present in the label map,
regardless of the value stored under it. -/
def markerPresent : LabelsField → Bool
  | .dict entries => (lookupStr entries "netpol.app").isSome
  | _ => false

/-- Outcome of one external command (`subprocess.run(..., check=True)`):
captured stdout on success, a `CalledProcessError` description on failure. -/
inductive CmdOutcome (α : Type) where
  | success (out : α)
  | failure (err : String)

/-- `run_command` (lines 17-24): returns the captured output, or prints a
diagnostic to stderr and exits with status 1 (`sys.exit(1)`), modelled as
the error branch carrying the stderr message.  The `.strip()` of stdout is
folded into the output representation chosen for each command. -/
def run_command : CmdOutcome α → Except String α
  | .success out => .ok out
  | .failure e => .error ("Error running command: " ++ e)

/-- The injected Docker runtime: the `docker network ls --format ID` listing
(as the list of id lines of its stripped stdout) and, per network id, the
`docker network inspect` call with its output already parsed
(`json.loads(inspect_output)[0]`, line 41). -/
structure DockerRuntime where
  ls : CmdOutcome (List String)
  inspect : String → CmdOutcome NetworkData

/-- The per-id loop of `get_docker_networks` (lines 35-46): skip empty id
lines, inspect each network, keep descriptors passing the label filter.
A failing inspect command aborts the whole call via `run_command`. -/
def gatherNetworks (rt : DockerRuntime) : List String → Except String (List NetworkData)
  | [] => .ok []
  | net_id :: rest =>
    if net_id = "" then gatherNetworks rt rest
    else
      match run_command (rt.inspect net_id) with
      | .error e => .error e
      | .ok network_data =>
        match gatherNetworks rt rest with
        | .error e => .error e
        | .ok networks =>
          .ok (if isPolicyRelevant network_data.Labels
               then network_data :: networks else networks)

/-- `get_docker_networks` (lines 27-48).  The `if not network_ids: return []`
check on the stripped `ls` stdout corresponds to an empty id-line list (the
loop would also skip a lone empty line, yielding the same `[]`). -/
def get_docker_networks (rt : DockerRuntime) : Except String (List NetworkData) :=
  match run_command rt.ls with
  | .error e => .error e
  | .ok network_ids =>
    if network_ids.isEmpty then .ok []
    else gatherNetworks rt network_ids

/-- The driver-option key holding the bridge interface name (line 57). -/
def bridgeNameKey : String := "com.docker.network.bridge.name"

/-- One entry of the listing output: the dict built at lines 83-89. -/
structure HepData where
  manifest : Json
  filename : String
  network_name : String
  bridge_name : String
  labels : List (String × String)
deriving Repr

/-- `generate_hep_manifest` (lines 51-89).  Returns the derived entry, or
`none` with a warning line (printed to stderr at line 59) when the bridge
name option is missing or empty (`if not bridge_name`). -/
def generate_hep_manifest (network : NetworkData) (node_name : String) :
    Option HepData × List String :=
  let labels := getLabels network.Labels
  let options := network.Options
  let bridge_name := dictGetD options bridgeNameKey ""
  if bridge_name = "" then
    (none, ["Warning: No bridge name found for network " ++ network.Name])
  else
    let app_name := dictGetD labels "netpol.app" "unknown"
    let app_id := dictGetD labels "netpol.app_id" "unknown"
    let role_name := dictGetD labels "netpol.role" "unknown"
    let hep_manifest := Json.obj
      [("apiVersion", .str "projectcalico.org/v3"),
       ("kind", .str "HostEndpoint"),
       ("metadata", .obj
         [("name", .str bridge_name),
          ("labels", .obj
            [("app", .str app_name),
             ("app-id", .str app_id),
             ("role", .str role_name)])]),
       ("spec", .obj
         [("node", .str node_name),
          ("interfaceName", .str bridge_name)])]
    (some { manifest := hep_manifest,
            filename := "hep-" ++ app_name ++ "-" ++ role_name ++ ".yaml",
            network_name := network.Name,
            bridge_name := bridge_name,
            labels := labels }, [])

/-- One listing entry serialized for `json.dumps(heps, indent=2)`
(key order as built at lines 83-89). -/
def HepData.toJson (h : HepData) : Json :=
  Json.obj
    [("manifest", h.manifest),
     ("filename", .str h.filename),
     ("network_name", .str h.network_name),
     ("bridge_name", .str h.bridge_name),
     ("labels", .obj (h.labels.map fun p => (p.1, Json.str p.2)))]

/-- The manifest metadata name field as read by `main`
(lines 174-179); `""` in the unreachable non-object cases. -/
def manifestName (m : Json) : String :=
  match (m.getField "metadata").bind (fun md => md.getField "name") with
  | some (.str s) => s
  | _ => ""

/-- Reads one label value out of a manifest document
(metadata.labels followed by the given key); none when a level is missing
or not of the expected shape. -/
def manifestLabel (m : Json) (k : String) : Option String :=
  match ((m.getField "metadata").bind (fun md => md.getField "labels")).bind
      (fun ls => ls.getField k) with
  | some (.str s) => some s
  | _ => none

/-- Outcome of the external apply helper
(`/usr/local/bin/apply_calico_manifests.sh`) for one manifest: success,
a `CalledProcessError` with captured stderr, or any other exception. -/
inductive ApplyOutcome where
  | ok
  | procError (stderrText : String)
  | otherError (msg : String)

/-- `apply_hep_manifest` (lines 92-121): true on success; on failure prints
a diagnostic to stderr (returned as lines here) and returns false.  The
YAML serialization handed to the helper is not observable in the result. -/
def apply_hep_manifest : ApplyOutcome → Bool × List String
  | .ok => (true, [])
  | .procError e => (false, ["Error applying manifest: " ++ e])
  | .otherError e => (false, ["Unexpected error applying manifest: " ++ e])

/-- The parsed command line (lines 128-134). -/
structure Args where
  node_name : String
  apply : Bool
  dry_run : Bool
  output_dir : Option String

/-- The injected external world: the Docker runtime and the behaviour of
the apply helper per submitted manifest and dry-run flag. -/
structure Env where
  docker : DockerRuntime
  applyFn : Json → Bool → ApplyOutcome

/-- The mutable state of the per-network loop of `main` (lines 148-179): the
`heps` list, the two counters, and the observable output accumulated so
far (stdout lines, stderr lines, files written). -/
structure LoopState where
  heps : List HepData
  applied_count : Nat
  failed_count : Nat
  out : List String
  err : List String
  files : List (String × Json)
deriving Repr

/-- Loop state at line 150: everything empty, counters zero. -/
def initState : LoopState :=
  { heps := [], applied_count := 0, failed_count := 0,
    out := [], err := [], files := [] }

/-- One iteration of the loop at lines 152-179: derive the manifest (skip
with the warning when it is `none`), optionally write the YAML file,
optionally apply it and update the counters. -/
def processNetwork (env : Env) (args : Args) (st : LoopState)
    (network : NetworkData) : LoopState :=
  match generate_hep_manifest network args.node_name with
  | (none, warns) => { st with err := st.err ++ warns }
  | (some hep, warns) =>
    let st1 := { st with err := st.err ++ warns, heps := st.heps ++ [hep] }
    let st2 :=
      match args.output_dir with
      | some dir =>
        let output_file := dir ++ "/" ++ hep.filename
        { st1 with files := st1.files ++ [(output_file, hep.manifest)],
                   out := st1.out ++ ["Written: " ++ output_file] }
      | none => st1
    if args.apply then
      let st3 := { st2 with out := st2.out ++
        ["Applying HostEndpoint for network " ++ network.Name ++ " -> "
          ++ hep.bridge_name] }
      match apply_hep_manifest (env.applyFn hep.manifest args.dry_run) with
      | (true, errs) =>
        { st3 with applied_count := st3.applied_count + 1,
                   err := st3.err ++ errs,
                   out := st3.out ++
                     [if args.dry_run
                      then "✓ Dry-run successful for HostEndpoint "
                        ++ manifestName hep.manifest
                      else "✓ Applied HostEndpoint "
                        ++ manifestName hep.manifest] }
      | (false, errs) =>
        { st3 with failed_count := st3.failed_count + 1,
                   err := st3.err ++ errs,
                   out := st3.out ++
                     ["✗ Failed to apply HostEndpoint "
                       ++ manifestName hep.manifest] }
    else st2

/-- The observable result of one process invocation. -/
structure ProgResult where
  out : List String
  err : List String
  exitCode : Nat
  files : List (String × Json)
deriving Repr

/-- The summary line printed at line 183. -/
def summaryLine (applied failed : Nat) : String :=
  "\nSummary: " ++ toString applied ++ " applied, " ++ toString failed ++ " failed"

/-- `main` (lines 124-188) as a function of the parsed arguments and the
injected external world. -/
def main (env : Env) (args : Args) : ProgResult :=
  match get_docker_networks env.docker with
  | .error msg => { out := [], err := [msg], exitCode := 1, files := [] }
  | .ok networks =>
    if networks.isEmpty then
      if args.apply then
        { out := ["No networks with netpol labels found"], err := [],
          exitCode := 0, files := [] }
      else
        { out := ["[]"], err := [], exitCode := 0, files := [] }
    else
      let st := networks.foldl (processNetwork env args) initState
      if args.apply then
        { out := st.out ++ [summaryLine st.applied_count st.failed_count],
          err := st.err,
          exitCode := if st.failed_count > 0 then 1 else 0,
          files := st.files }
      else
        { out := st.out ++ [Json.render (Json.arr (st.heps.map HepData.toJson))],
          err := st.err,
          exitCode := 0,
          files := st.files }

/-- Discovery plus derivation (the pipeline of the idempotence property in
section 8 of the spec):
enumerate and filter networks, then derive a manifest entry per network,
dropping the bridge-less ones. -/
def deriveAll (rt : DockerRuntime) (node_name : String) :
    Except String (List HepData) :=
  match get_docker_networks rt with
  | .error e => .error e
  | .ok networks =>
    .ok (networks.filterMap fun n => (generate_hep_manifest n node_name).1)

/-! Concrete fixtures used by the witnesses below: small runtimes and
argument vectors on which the model is evaluated. -/

/-- A policy-relevant network with a bridge name and one `netpol` label. -/
def netA : NetworkData :=
  { Name := "netA", Labels := .dict [("netpol.app", "web")],
    Options := [("com.docker.network.bridge.name", "br-aaa")] }

/-- A network without the `netpol.app` enablement marker. -/
def netB : NetworkData :=
  { Name := "netB", Labels := .dict [("other", "x")], Options := [] }

/-- A policy-relevant network with no bridge-name driver option. -/
def netC : NetworkData :=
  { Name := "netC", Labels := .dict [("netpol.app", "db")], Options := [] }

/-- A policy-relevant network whose bridge-name option is the empty string. -/
def netEmptyBr : NetworkData :=
  { Name := "netE", Labels := .dict [("netpol.app", "db")],
    Options := [("com.docker.network.bridge.name", "")] }

/-- The entry `generate_hep_manifest` derives from `netA` on node `node1`. -/
def hepA : HepData :=
  { manifest := Json.obj
      [("apiVersion", .str "projectcalico.org/v3"),
       ("kind", .str "HostEndpoint"),
       ("metadata", .obj
         [("name", .str "br-aaa"),
          ("labels", .obj
            [("app", .str "web"),
             ("app-id", .str "unknown"),
             ("role", .str "unknown")])]),
       ("spec", .obj
         [("node", .str "node1"),
          ("interfaceName", .str "br-aaa")])],
    filename := "hep-web-unknown.yaml",
    network_name := "netA",
    bridge_name := "br-aaa",
    labels := [("netpol.app", "web")] }

/-- A runtime exposing `netA` and `netB`. -/
def rt1 : DockerRuntime :=
  { ls := .success ["id1", "id2"],
    inspect := fun net_id =>
      if net_id = "id1" then .success netA else .success netB }

/-- A runtime exposing the same two networks under different ids. -/
def rt1b : DockerRuntime :=
  { ls := .success ["x7", "x8"],
    inspect := fun net_id =>
      if net_id = "x7" then .success netA else .success netB }

/-- A runtime exposing only the non-relevant `netB`. -/
def rtOnlyB : DockerRuntime :=
  { ls := .success ["id2"], inspect := fun _ => .success netB }

/-- A runtime exposing `netC` (relevant, bridge-less) and `netA`. -/
def rtC : DockerRuntime :=
  { ls := .success ["id3", "id1"],
    inspect := fun net_id =>
      if net_id = "id3" then .success netC else .success netA }

/-- A runtime whose network enumeration command fails. -/
def rtFail : DockerRuntime :=
  { ls := .failure "docker daemon not running",
    inspect := fun _ => .failure "unreachable" }

/-- An environment over `rt1` whose apply helper rejects every manifest. -/
def envReject : Env :=
  { docker := rt1, applyFn := fun _ _ => .procError "validation failed" }

/-- An environment over `rtOnlyB` (no relevant networks). -/
def envOnlyB : Env :=
  { docker := rtOnlyB, applyFn := fun _ _ => .ok }

/-- An environment over `rtC` whose apply helper accepts everything. -/
def envC : Env :=
  { docker := rtC, applyFn := fun _ _ => .ok }

/-- An environment whose enumeration fails. -/
def envFail : Env :=
  { docker := rtFail, applyFn := fun _ _ => .ok }

/-- Apply-mode arguments for node `node1`. -/
def argsApply : Args :=
  { node_name := "node1", apply := true, dry_run := false, output_dir := none }

/-- Listing-mode arguments for node `node1`. -/
def argsList : Args :=
  { node_name := "node1", apply := false, dry_run := false, output_dir := none }

/-- The loop state reached by apply-mode processing of `[netA]` under the
rejecting helper. -/
def stReject : LoopState :=
  [netA].foldl (processNetwork envReject argsApply) initState

/-! Helper lemmas shared by the claim theorems. -/

/-- The inline filter of line 45 agrees with the marker-presence predicate
of section 4.2 of the spec. -/
theorem relevant_eq_marker (lf : LabelsField) :
    isPolicyRelevant lf = markerPresent lf := by
  cases lf with
  | absent => rfl
  | nullv => rfl
  | dict entries =>
    cases entries with
    | nil => rfl
    | cons p rest => simp [isPolicyRelevant, markerPresent]

/-- Every descriptor kept by the per-id loop passes the label filter. -/
theorem gather_keeps_relevant (rt : DockerRuntime) :
    ∀ ids nets, gatherNetworks rt ids = .ok nets →
      ∀ n ∈ nets, isPolicyRelevant n.Labels = true := by
  intro ids
  induction ids with
  | nil =>
    intro nets h n hn
    simp only [gatherNetworks] at h
    injection h with h
    subst h
    cases hn
  | cons net_id rest ih =>
    intro nets h n hn
    simp only [gatherNetworks] at h
    by_cases hid : net_id = ""
    · rw [if_pos hid] at h
      exact ih nets h n hn
    · rw [if_neg hid] at h
      cases hri : run_command (rt.inspect net_id) with
      | error e => rw [hri] at h; cases h
      | ok network_data =>
        rw [hri] at h
        cases hg : gatherNetworks rt rest with
        | error e => rw [hg] at h; cases h
        | ok networks =>
          rw [hg] at h
          injection h with h
          by_cases hrel : isPolicyRelevant network_data.Labels
          · rw [if_pos hrel] at h
            subst h
            cases hn with
            | head => exact hrel
            | tail _ hn => exact ih networks hg n hn
          · rw [if_neg hrel] at h
            subst h
            exact ih networks hg n hn

/-- Every descriptor returned by discovery passes the label filter. -/
theorem networks_keep_relevant (rt : DockerRuntime) (nets : List NetworkData)
    (h : get_docker_networks rt = .ok nets) :
    ∀ n ∈ nets, isPolicyRelevant n.Labels = true := by
  unfold get_docker_networks at h
  split at h
  · cases h
  · split at h
    · injection h with h
      subst h
      intro n hn
      cases hn
    · exact gather_keeps_relevant rt _ nets h

/-- When the bridge-name option is missing or empty, derivation skips the
network with the warning of line 59. -/
theorem generate_no_bridge (net : NetworkData) (node : String)
    (h : dictGetD net.Options bridgeNameKey "" = "") :
    generate_hep_manifest net node
      = (none, ["Warning: No bridge name found for network " ++ net.Name]) := by
  unfold generate_hep_manifest
  simp [h]

/-- A skipped network only adds its warning to stderr; the loop state is
otherwise unchanged. -/
theorem step_skipped (env : Env) (args : Args) (st : LoopState)
    (net : NetworkData)
    (h : (generate_hep_manifest net args.node_name).1 = none) :
    processNetwork env args st net
      = { st with err := st.err ++ (generate_hep_manifest net args.node_name).2 } := by
  rcases hg : generate_hep_manifest net args.node_name with ⟨o, warns⟩
  rw [hg] at h
  cases o with
  | none => simp only [processNetwork, hg]
  | some hep => cases h

/-- In apply mode one loop iteration settles exactly one counter per
derived manifest, and none for a skipped network. -/
theorem step_counts (env : Env) (args : Args) (st : LoopState)
    (net : NetworkData) (ha : args.apply = true) :
    (processNetwork env args st net).applied_count
      + (processNetwork env args st net).failed_count
      + st.heps.length
    = st.applied_count + st.failed_count
      + (processNetwork env args st net).heps.length := by
  rcases hg : generate_hep_manifest net args.node_name with ⟨o, warns⟩
  cases o with
  | none => simp [processNetwork, hg]
  | some hep =>
    rcases happ : apply_hep_manifest (env.applyFn hep.manifest args.dry_run)
      with ⟨b, errs⟩
    cases b <;> cases hd : args.output_dir <;>
      simp [processNetwork, hg, ha, happ, hd] <;> omega

/-- Over the whole apply-mode batch, applications plus failures account for
exactly the derived manifests (every manifest is attempted). -/
theorem foldl_counts (env : Env) (args : Args) (ha : args.apply = true) :
    ∀ (networks : List NetworkData) (st : LoopState),
      (networks.foldl (processNetwork env args) st).applied_count
        + (networks.foldl (processNetwork env args) st).failed_count
        + st.heps.length
      = st.applied_count + st.failed_count
        + (networks.foldl (processNetwork env args) st).heps.length := by
  intro networks
  induction networks with
  | nil => intro st; simp
  | cons net rest ih =>
    intro st
    simp only [List.foldl_cons]
    have h1 := step_counts env args st net ha
    have h2 := ih (processNetwork env args st net)
    omega

/-- A derived manifest is appended to the running `heps` list, whatever
the mode flags and the apply outcome. -/
theorem step_heps_grow (env : Env) (args : Args) (st : LoopState)
    (net : NetworkData) (hep : HepData)
    (h : (generate_hep_manifest net args.node_name).1 = some hep) :
    (processNetwork env args st net).heps = st.heps ++ [hep] := by
  rcases hgen : generate_hep_manifest net args.node_name with ⟨o, warns⟩
  rw [hgen] at h
  cases o with
  | none => cases h
  | some hep2 =>
    injection h with h
    subst h
    rcases happ : apply_hep_manifest (env.applyFn hep2.manifest args.dry_run)
      with ⟨b, errs⟩
    cases b <;> cases hd : args.output_dir <;> cases hap : args.apply <;>
      simp [processNetwork, hgen, happ, hd, hap]

/-- If the batch derives no manifest at all, the loop prints nothing to
stdout (warnings go to stderr only). -/
theorem foldl_out_of_heps_nil (env : Env) (args : Args) :
    ∀ (networks : List NetworkData) (st : LoopState),
      (networks.foldl (processNetwork env args) st).heps = [] →
      (networks.foldl (processNetwork env args) st).out = st.out
        ∧ st.heps = [] := by
  intro networks
  induction networks with
  | nil => intro st h; exact ⟨rfl, h⟩
  | cons net rest ih =>
    intro st h
    simp only [List.foldl_cons] at h ⊢
    rcases ih (processNetwork env args st net) h with ⟨hout, hnil⟩
    cases hgo : (generate_hep_manifest net args.node_name).1 with
    | some hep =>
      rw [step_heps_grow env args st net hep hgo] at hnil
      simp at hnil
    | none =>
      have hstep := step_skipped env args st net hgo
      rw [hstep] at hout hnil ⊢
      exact ⟨hout, hnil⟩

/-- C1: a network whose label map lacks the policy-enablement marker key
`netpol.app` never survives discovery, so the pipeline derives zero
manifests for it; the filter predicate holds iff the marker key is present
in the labels, regardless of the stored value, so a network whose marker
value is the empty string is retained. -/
theorem c1_filter_completeness :
    (∀ rt nets n, get_docker_networks rt = .ok nets →
       markerPresent n.Labels = false → n ∉ nets)
    ∧ (∀ lf, isPolicyRelevant lf = markerPresent lf)
    ∧ isPolicyRelevant (.dict [("netpol.app", "")]) = true := by
  refine ⟨?_, relevant_eq_marker, by decide⟩
  intro rt nets n hok hmark hmem
  have hrel := networks_keep_relevant rt nets hok n hmem
  rw [relevant_eq_marker, hmark] at hrel
  cases hrel

/-- Witness for C1 on a concrete runtime: the unmarked `netB` is not among
the discovered networks. -/
theorem c1_witness : netB ∉ [netA] :=
  c1_filter_completeness.1 rt1 [netA] netB rfl rfl

/-- C2: whenever the bridge-name driver option is present and non-empty,
derivation yields exactly one manifest, and each of the three manifest
labels equals its own source label when present and `unknown` when that
label alone is absent, independently of the sibling labels. -/
theorem c2_derivation_defaults (net : NetworkData) (node b : String)
    (hb : lookupStr net.Options bridgeNameKey = some b) (hne : b ≠ "") :
    ∃ hep, (generate_hep_manifest net node).1 = some hep
      ∧ manifestLabel hep.manifest "app"
          = some ((lookupStr (getLabels net.Labels) "netpol.app").getD "unknown")
      ∧ manifestLabel hep.manifest "app-id"
          = some ((lookupStr (getLabels net.Labels) "netpol.app_id").getD "unknown")
      ∧ manifestLabel hep.manifest "role"
          = some ((lookupStr (getLabels net.Labels) "netpol.role").getD "unknown") := by
  have hb2 : dictGetD net.Options bridgeNameKey "" = b := by
    simp [dictGetD, hb]
  simp only [generate_hep_manifest, hb2]
  rw [if_neg hne]
  exact ⟨_, rfl, rfl, rfl, rfl⟩

/-- Witness for C2: on `netA` (which has `netpol.app` but neither
`netpol.app_id` nor `netpol.role`) the fallbacks activate per field. -/
theorem c2_witness :
    ∃ hep, (generate_hep_manifest netA "node1").1 = some hep
      ∧ manifestLabel hep.manifest "app"
          = some ((lookupStr (getLabels netA.Labels) "netpol.app").getD "unknown")
      ∧ manifestLabel hep.manifest "app-id"
          = some ((lookupStr (getLabels netA.Labels) "netpol.app_id").getD "unknown")
      ∧ manifestLabel hep.manifest "role"
          = some ((lookupStr (getLabels netA.Labels) "netpol.role").getD "unknown") :=
  c2_derivation_defaults netA "node1" "br-aaa" rfl (by decide)

/-- C6: every derived manifest has exactly the document shape
apiVersion / kind / metadata.name / metadata.labels(app, app-id, role) /
spec.node / spec.interfaceName, with metadata.name and spec.interfaceName
both verbatim equal to the extracted bridge identifier and spec.node equal
to the supplied node name. -/
theorem c6_manifest_shape (net : NetworkData) (node : String) (hep : HepData)
    (h : (generate_hep_manifest net node).1 = some hep) :
    ∃ app appid role,
      hep.manifest = Json.obj
        [("apiVersion", .str "projectcalico.org/v3"),
         ("kind", .str "HostEndpoint"),
         ("metadata", .obj
           [("name", .str hep.bridge_name),
            ("labels", .obj
              [("app", .str app), ("app-id", .str appid), ("role", .str role)])]),
         ("spec", .obj
           [("node", .str node), ("interfaceName", .str hep.bridge_name)])]
      ∧ hep.bridge_name = dictGetD net.Options bridgeNameKey "" := by
  by_cases hb : dictGetD net.Options bridgeNameKey "" = ""
  · rw [generate_no_bridge net node hb] at h
    cases h
  · simp only [generate_hep_manifest] at h
    rw [if_neg hb] at h
    injection h with h
    subst h
    exact ⟨_, _, _, rfl, rfl⟩

/-- Witness for C6: the manifest derived from `netA` has the contract
shape with `br-aaa` as both name and interfaceName. -/
theorem c6_witness :
    ∃ app appid role,
      hepA.manifest = Json.obj
        [("apiVersion", .str "projectcalico.org/v3"),
         ("kind", .str "HostEndpoint"),
         ("metadata", .obj
           [("name", .str hepA.bridge_name),
            ("labels", .obj
              [("app", .str app), ("app-id", .str appid), ("role", .str role)])]),
         ("spec", .obj
           [("node", .str "node1"), ("interfaceName", .str hepA.bridge_name)])]
      ∧ hepA.bridge_name = dictGetD netA.Options bridgeNameKey "" :=
  c6_manifest_shape netA "node1" hepA rfl

/-- C8: discovery plus derivation is deterministic — two runs that observe
the same sequence of network descriptors with the same node name produce
bit-identical manifest entries.  In this embedding the pipeline is a pure
function of the observed descriptors and the node name (it reads no clock,
randomness or hidden state), so equality of the observations forces
equality of the outputs. -/
theorem c8_pipeline_deterministic (rt rt2 : DockerRuntime) (node : String)
    (h : get_docker_networks rt = get_docker_networks rt2) :
    deriveAll rt node = deriveAll rt2 node := by
  unfold deriveAll
  rw [h]

/-- Witness for C8: two runtimes listing the same networks under different
ids yield identical derived manifests. -/
theorem c8_witness : deriveAll rt1 "node1" = deriveAll rt1b "node1" :=
  c8_pipeline_deterministic rt1 rt1b "node1" rfl

/-- C9: every listing entry carries exactly the manifest, the filename
`hep-(app)-(role).yaml` computed from the possibly defaulted app and role
values, the originating network name, the bridge name, and the raw
observed label map (not the defaulted values that appear inside the
manifest). -/
theorem c9_listing_entry (net : NetworkData) (node : String) (hep : HepData)
    (h : (generate_hep_manifest net node).1 = some hep) :
    hep.filename = "hep-" ++ dictGetD (getLabels net.Labels) "netpol.app" "unknown"
        ++ "-" ++ dictGetD (getLabels net.Labels) "netpol.role" "unknown" ++ ".yaml"
    ∧ hep.network_name = net.Name
    ∧ hep.bridge_name = dictGetD net.Options bridgeNameKey ""
    ∧ hep.labels = getLabels net.Labels
    ∧ HepData.toJson hep = Json.obj
        [("manifest", hep.manifest),
         ("filename", .str hep.filename),
         ("network_name", .str hep.network_name),
         ("bridge_name", .str hep.bridge_name),
         ("labels", .obj (hep.labels.map fun p => (p.1, Json.str p.2)))] := by
  by_cases hb : dictGetD net.Options bridgeNameKey "" = ""
  · rw [generate_no_bridge net node hb] at h
    cases h
  · simp only [generate_hep_manifest] at h
    rw [if_neg hb] at h
    injection h with h
    subst h
    exact ⟨rfl, rfl, rfl, rfl, rfl⟩

/-- Witness for C9: the listing entry derived from `netA` keeps the raw
label map and computes the filename from the defaulted values. -/
theorem c9_witness :
    hepA.filename = "hep-" ++ dictGetD (getLabels netA.Labels) "netpol.app" "unknown"
        ++ "-" ++ dictGetD (getLabels netA.Labels) "netpol.role" "unknown" ++ ".yaml"
    ∧ hepA.network_name = netA.Name
    ∧ hepA.bridge_name = dictGetD netA.Options bridgeNameKey ""
    ∧ hepA.labels = getLabels netA.Labels
    ∧ HepData.toJson hepA = Json.obj
        [("manifest", hepA.manifest),
         ("filename", .str hepA.filename),
         ("network_name", .str hepA.network_name),
         ("bridge_name", .str hepA.bridge_name),
         ("labels", .obj (hepA.labels.map fun p => (p.1, Json.str p.2)))] :=
  c9_listing_entry netA "node1" hepA rfl

/-- C3: in apply mode every derived manifest is attempted and settles
exactly one of the two counters (a failed apply never stops the batch),
the summary line is printed after the per-manifest output, and the exit
code is 1 iff at least one manifest failed to apply. -/
theorem c3_apply_failure_accounting (env : Env) (args : Args)
    (networks : List NetworkData) (st : LoopState)
    (ha : args.apply = true)
    (hn : get_docker_networks env.docker = .ok networks)
    (hne : networks ≠ [])
    (hst : st = networks.foldl (processNetwork env args) initState) :
    st.applied_count + st.failed_count = st.heps.length
    ∧ (main env args).out
        = st.out ++ [summaryLine st.applied_count st.failed_count]
    ∧ ((main env args).exitCode = 1 ↔ 0 < st.failed_count) := by
  subst hst
  have hcounts := foldl_counts env args ha networks initState
  have e1 : initState.heps.length = 0 := rfl
  have e2 : initState.applied_count = 0 := rfl
  have e3 : initState.failed_count = 0 := rfl
  refine ⟨by omega, ?_, ?_⟩
  · cases networks with
    | nil => exact absurd rfl hne
    | cons n rest => simp [main, hn, ha]
  · cases networks with
    | nil => exact absurd rfl hne
    | cons n rest =>
      have hmain : (main env args).exitCode =
          (if ((n :: rest).foldl (processNetwork env args) initState).failed_count > 0
           then 1 else 0) := by
        simp [main, hn, ha]
      rw [hmain]
      by_cases hf :
          ((n :: rest).foldl (processNetwork env args) initState).failed_count > 0
      · rw [if_pos hf]
        exact ⟨fun _ => hf, fun _ => rfl⟩
      · rw [if_neg hf]
        exact ⟨fun h => absurd h (by omega), fun h => absurd h hf⟩

/-- Witness for C3: one discovered network whose apply is rejected gives
0 applied / 1 failed, the summary line, and exit code 1. -/
theorem c3_witness :
    stReject.applied_count + stReject.failed_count = stReject.heps.length
    ∧ (main envReject argsApply).out
        = stReject.out ++ [summaryLine stReject.applied_count stReject.failed_count]
    ∧ ((main envReject argsApply).exitCode = 1 ↔ 0 < stReject.failed_count) :=
  c3_apply_failure_accounting envReject argsApply [netA] stReject rfl rfl
    (List.cons_ne_nil _ _) rfl

/-- C4: a failing enumeration or inspection command aborts the whole
invocation: discovery propagates the failure, and `main` then prints only
the diagnostic to stderr, exits with code 1, and produces no stdout output
and no files. -/
theorem c4_fatal_enumeration :
    (∀ env args msg, get_docker_networks env.docker = .error msg →
       main env args = { out := [], err := [msg], exitCode := 1, files := [] })
    ∧ (∀ rt e, rt.ls = .failure e →
       get_docker_networks rt = .error ("Error running command: " ++ e))
    ∧ (∀ rt ids,
       (∃ net_id ∈ ids, net_id ≠ "" ∧ ∃ e, rt.inspect net_id = .failure e) →
       ∃ msg, gatherNetworks rt ids = .error msg) := by
  refine ⟨?_, ?_, ?_⟩
  · intro env args msg h
    simp [main, h]
  · intro rt e h
    simp [get_docker_networks, run_command, h]
  · intro rt ids
    induction ids with
    | nil => intro h; simp at h
    | cons a rest ih =>
      intro h
      by_cases ha : a = ""
      · have hrest : ∃ net_id ∈ rest, net_id ≠ ""
            ∧ ∃ e, rt.inspect net_id = .failure e := by
          rcases h with ⟨net_id, hmem, hid, e, he⟩
          cases hmem with
          | head => exact absurd ha hid
          | tail _ hm => exact ⟨net_id, hm, hid, e, he⟩
        rcases ih hrest with ⟨msg, hg⟩
        exact ⟨msg, by simp [gatherNetworks, ha, hg]⟩
      · cases hia : rt.inspect a with
        | failure ea =>
          refine ⟨"Error running command: " ++ ea, ?_⟩
          simp [gatherNetworks, ha, run_command, hia]
        | success nd =>
          have hrest : ∃ net_id ∈ rest, net_id ≠ ""
              ∧ ∃ e, rt.inspect net_id = .failure e := by
            rcases h with ⟨net_id, hmem, hid, e, he⟩
            cases hmem with
            | head => rw [hia] at he; cases he
            | tail _ hm => exact ⟨net_id, hm, hid, e, he⟩
          rcases ih hrest with ⟨msg, hg⟩
          exact ⟨msg, by simp [gatherNetworks, ha, run_command, hia, hg]⟩

/-- Witness for C4: with a failing `docker network ls`, the program emits
only the diagnostic, exit code 1, no stdout, no files. -/
theorem c4_witness :
    main envFail argsList
      = { out := [],
          err := ["Error running command: " ++ "docker daemon not running"],
          exitCode := 1, files := [] } :=
  c4_fatal_enumeration.1 envFail argsList _
    (c4_fatal_enumeration.2.1 rtFail "docker daemon not running" rfl)

/-- C5: a qualifying network without a usable bridge name yields no
manifest and only a warning; the loop state is otherwise unchanged so the
remaining networks are still processed, and the run exits 0 when no apply
failure occurs (in particular always in listing mode). -/
theorem c5_skip_with_warning :
    (∀ net node, dictGetD net.Options bridgeNameKey "" = "" →
       generate_hep_manifest net node
         = (none, ["Warning: No bridge name found for network " ++ net.Name]))
    ∧ (∀ env args st net, (generate_hep_manifest net args.node_name).1 = none →
       processNetwork env args st net
         = { st with err := st.err ++ (generate_hep_manifest net args.node_name).2 })
    ∧ (∀ env args networks, get_docker_networks env.docker = .ok networks →
       (args.apply = true →
         (networks.foldl (processNetwork env args) initState).failed_count = 0) →
       (main env args).exitCode = 0) := by
  refine ⟨generate_no_bridge, step_skipped, ?_⟩
  intro env args networks hn hf
  cases networks with
  | nil => cases hap : args.apply <;> simp [main, hn, hap]
  | cons n rest =>
    cases hap : args.apply with
    | false => simp [main, hn, hap]
    | true =>
      have hzero := hf hap
      have hmain : (main env args).exitCode =
          (if ((n :: rest).foldl (processNetwork env args) initState).failed_count > 0
           then 1 else 0) := by
        simp [main, hn, hap]
      rw [hmain, hzero]
      simp

/-- Witness for C5: the bridge-less `netC` is skipped with the warning,
and a listing run over a runtime containing it exits 0. -/
theorem c5_witness :
    generate_hep_manifest netC "node1"
      = (none, ["Warning: No bridge name found for network " ++ netC.Name])
    ∧ (main envC argsList).exitCode = 0 :=
  ⟨c5_skip_with_warning.1 netC "node1" rfl,
   c5_skip_with_warning.2.2 envC argsList [netC, netA] rfl
     (fun hfalse => absurd hfalse (by decide))⟩

/-- C7: in listing mode, both with zero qualifying networks and with zero
derived manifests, stdout is exactly the serialization of the empty JSON
collection — a parseable structured document, not an error and not the
empty string — and the exit code is 0. -/
theorem c7_empty_listing_output :
    (∀ env args, args.apply = false → get_docker_networks env.docker = .ok [] →
       (main env args).out = ["[]"] ∧ (main env args).exitCode = 0)
    ∧ (∀ env args networks, args.apply = false →
       get_docker_networks env.docker = .ok networks → networks ≠ [] →
       (networks.foldl (processNetwork env args) initState).heps = [] →
       (main env args).out = [Json.render (Json.arr [])]
         ∧ (main env args).exitCode = 0)
    ∧ Json.render (Json.arr []) = "[]"
    ∧ ("[]" : String) ≠ "" := by
  refine ⟨?_, ?_, rfl, by decide⟩
  · intro env args ha hn
    constructor <;> simp [main, hn, ha]
  · intro env args networks ha hn hne hheps
    cases networks with
    | nil => exact absurd rfl hne
    | cons n rest =>
      have hout := (foldl_out_of_heps_nil env args (n :: rest) initState hheps).1
      have hmain : (main env args).out =
          ((n :: rest).foldl (processNetwork env args) initState).out
            ++ [Json.render (Json.arr
                (((n :: rest).foldl (processNetwork env args) initState).heps.map
                   HepData.toJson))] := by
        simp [main, hn, ha]
      constructor
      · rw [hmain, hheps, hout]
        simp [initState]
      · simp [main, hn, ha]

/-- Witness for C7: a runtime exposing only the non-qualifying `netB`
makes the listing run print exactly the empty JSON array. -/
theorem c7_witness :
    (main envOnlyB argsList).out = ["[]"]
      ∧ (main envOnlyB argsList).exitCode = 0 :=
  c7_empty_listing_output.1 envOnlyB argsList rfl rfl

/-- C10: a descriptor whose Labels field is absent or null is filtered out
without an error (every discovered network has a dict label map containing
the marker), and a present-but-empty bridge-name option is treated exactly
like an absent one: skip with the same warning and no manifest. -/
theorem c10_degenerate_inputs :
    (isPolicyRelevant .absent = false ∧ isPolicyRelevant .nullv = false)
    ∧ (∀ rt nets n, get_docker_networks rt = .ok nets → n ∈ nets →
        ∃ entries, n.Labels = .dict entries
          ∧ (lookupStr entries "netpol.app").isSome = true)
    ∧ (∀ net node,
        lookupStr net.Options bridgeNameKey = none
          ∨ lookupStr net.Options bridgeNameKey = some "" →
        generate_hep_manifest net node
          = (none, ["Warning: No bridge name found for network " ++ net.Name])) := by
  refine ⟨⟨rfl, rfl⟩, ?_, ?_⟩
  · intro rt nets n hok hmem
    have hrel := networks_keep_relevant rt nets hok n hmem
    cases hl : n.Labels with
    | absent => rw [hl] at hrel; cases hrel
    | nullv => rw [hl] at hrel; cases hrel
    | dict entries =>
      refine ⟨entries, rfl, ?_⟩
      rw [hl] at hrel
      simp only [isPolicyRelevant, Bool.and_eq_true] at hrel
      exact hrel.2
  · intro net node h
    apply generate_no_bridge
    rcases h with h | h <;> simp [dictGetD, h]

/-- Witness for C10: the discovered `netA` has a dict label map with the
marker, and the empty-string bridge option of `netEmptyBr` is skipped with
the warning. -/
theorem c10_witness :
    (∃ entries, netA.Labels = .dict entries
       ∧ (lookupStr entries "netpol.app").isSome = true)
    ∧ generate_hep_manifest netEmptyBr "node1"
        = (none, ["Warning: No bridge name found for network " ++ netEmptyBr.Name]) :=
  ⟨c10_degenerate_inputs.2.1 rt1 [netA] netA rfl (List.mem_singleton.mpr rfl),
   c10_degenerate_inputs.2.2 netEmptyBr "node1" (Or.inr rfl)⟩

end DockerNetpolHeps
